import Mathlib

/-!
# VivaSmart backend — entitlement & access-control engine, shallow embedding

This file embeds the entitlement logic of the VivaSmart backend (an
Express/Supabase service) in Lean 4 and proves the testable properties of
its specification against the embedded code.

The repository contains several backend revisions.  The primary authority
is the v4.0 backend (`src/unnamed/part_002`, first file); where a claim
cites another revision we embed the function of that revision as well:
  * `userCanAnalyze` / `totalTrialsAllowed` from the v3 backend
    (`src/unnamed/part_001`),
  * the v2 coupon-redemption endpoint from `src/server.js`.

Modelling conventions:
  * Supabase rows become Lean structures; a table is a `List` of rows and
    a row update maps every row whose key matches (`updateBy`).
  * Timestamps are `Int` milliseconds; `new Date()` at handler time is an
    explicit `now : Int` parameter; `a < b` on dates is `Int` `<`.
  * Nullable DB columns are `Option` fields.  The JavaScript `x || d`
    fallback (which treats `null`, `undefined` and `0` alike) is the
    explicit `jsOr` below.
  * `trials_used` is modelled as `Nat` with `null ↦ 0`: every v4 read of
    it (`u.trials_used || 0`, `null >= total` being false, `null + 1 = 1`)
    behaves exactly as the value `0` does.
  * The Gemini (Analyzer) call is an opaque outcome parameter; the
    handler code after the call is embedded as written.
  * Each Supabase write whose result the code ignores is modelled as
    possibly failing: a failing write leaves the table untouched while
    the handler continues exactly as the JavaScript does (the code never
    inspects the `error` field of these calls).
-/

namespace VivaSmart

/-- `FREE_TRIALS = 3` (v4 backend, line 24). -/
def FREE_TRIALS : Nat := 3

/-- JavaScript `x || d` on a nullable numeric column: `null`/`undefined`
and `0` are falsy and fall back to the default. -/
def jsOr (o : Option Nat) (d : Nat) : Nat :=
  match o with
  | none => d
  | some n => if n = 0 then d else n

/-- JavaScript truthiness of a nullable numeric column (`cp.max_uses && …`):
`null` and `0` are falsy. -/
def jsTruthy (o : Option Nat) : Bool :=
  match o with
  | none => false
  | some n => n ≠ 0

/-- JavaScript falsiness of a request string field (`if (!code)`):
missing or empty is falsy. -/
def jsStrFalsy (o : Option String) : Bool :=
  match o with
  | none => true
  | some s => s = ""

/-- JavaScript falsiness of a request id field (`if (!userId)`). -/
def jsIdFalsy (o : Option Nat) : Bool :=
  match o with
  | none => true
  | some n => n = 0

/-- `s.trim()` modelled over the character list (`String.trim` itself does
not reduce in the kernel). -/
def jsTrim (s : String) : String :=
  String.mk (((s.data.dropWhile Char.isWhitespace).reverse.dropWhile
    Char.isWhitespace).reverse)

/-- `s.toUpperCase()` over the character list. -/
def jsToUpper (s : String) : String :=
  String.mk (s.data.map Char.toUpper)

/-- `s.toLowerCase()` over the character list. -/
def jsToLower (s : String) : String :=
  String.mk (s.data.map Char.toLower)

/-- A row of the `users` table (v4 schema). -/
structure User where
  id : Nat
  email : String
  name : String
  role : String
  trials_total : Option Nat
  trials_used : Nat
  subscribed : Bool
  sub_plan : Option String
  sub_expires : Option Int
  deriving Repr, DecidableEq

/-- A row of the `coupons` table (v4 schema). -/
structure Coupon where
  id : Nat
  code : String
  active : Bool
  max_uses : Option Nat
  uses : Nat
  trial_grant : Option Nat
  plan_grant : Option String
  expiry_date : Option Int
  deriving Repr, DecidableEq

/-- A row of the `coupon_redemptions` table. -/
structure Redemption where
  coupon_id : Nat
  user_id : Nat
  deriving Repr, DecidableEq

/-- A row of the `payments` table (the fields the entitlement logic touches). -/
structure Payment where
  id : Nat
  user_id : Option Nat
  email : Option String
  plan : String
  status : String
  trials_granted : Option Nat
  verified_at : Option Int
  verified_by : Option String
  notes : Option String
  deriving Repr, DecidableEq

/-- A row of the `analyses` audit table. -/
structure AnalysisRow where
  user_id : Option Nat
  email : String
  project_title : String
  deriving Repr, DecidableEq

/-- The Supabase store: one list per table. -/
structure Store where
  users : List User
  coupons : List Coupon
  redemptions : List Redemption
  payments : List Payment
  analyses : List AnalysisRow
  deriving Repr, DecidableEq

/-- `supabase.from(t).select().eq(key, k).single()` — first row matching the key. -/
def findBy {α β : Type} [DecidableEq β] (key : α → β) (k : β) : List α → Option α
  | [] => none
  | x :: xs => if key x = k then some x else findBy key k xs

/-- `supabase.from(t).update(f).eq(key, k)` — rewrite every row matching the key. -/
def updateBy {α β : Type} [DecidableEq β] (key : α → β) (k : β) (f : α → α) :
    List α → List α
  | [] => []
  | x :: xs => (if key x = k then f x else x) :: updateBy key k f xs

def findUser (st : Store) (uid : Nat) : Option User :=
  findBy User.id uid st.users

def updateUser (st : Store) (uid : Nat) (f : User → User) : Store :=
  { st with users := updateBy User.id uid f st.users }

def findCouponByCode (st : Store) (code : String) : Option Coupon :=
  findBy Coupon.code code st.coupons

def findCoupon (st : Store) (cid : Nat) : Option Coupon :=
  findBy Coupon.id cid st.coupons

def updateCoupon (st : Store) (cid : Nat) (f : Coupon → Coupon) : Store :=
  { st with coupons := updateBy Coupon.id cid f st.coupons }

def findPayment (st : Store) (pid : Nat) : Option Payment :=
  findBy Payment.id pid st.payments

def updatePayment (st : Store) (pid : Nat) (f : Payment → Payment) : Store :=
  { st with payments := updateBy Payment.id pid f st.payments }

/-- Is the redemption row set for one pair non-empty?  Mirrors the select
on `coupon_redemptions` filtered by coupon id and user id. -/
def redemptionExists (st : Store) (cid uid : Nat) : Bool :=
  st.redemptions.any (fun r => r.coupon_id = cid ∧ r.user_id = uid)

/-- Number of redemption rows for one `(coupon, user)` pair. -/
def pairCount (st : Store) (cid uid : Nat) : Nat :=
  (st.redemptions.filter (fun r => r.coupon_id = cid ∧ r.user_id = uid)).length

/-- Effective trial quota as every v4 read computes it:
`u.trials_total || FREE_TRIALS`. -/
def effTotal (u : User) : Nat :=
  jsOr u.trials_total FREE_TRIALS

/-- The 403 body returned by the v4 analyze gate on denial. -/
structure TrialLimitErr where
  error : String
  code : String
  trials_used : Nat
  trials_total : Nat
  deriving Repr, DecidableEq

/-- v4 `POST /api/analyze` entitlement gate (part_002 lines 146–149), run on
the refreshed snapshot `ur`: non-admin, non-subscribed users whose
`trials_used` has reached `trials_total || FREE_TRIALS` are denied with the
trial-limit error; `none` means the request proceeds. -/
def analyzeGate (ur : User) : Option TrialLimitErr :=
  if ur.role ≠ "admin" ∧ ur.subscribed = false then
    if ur.trials_used ≥ jsOr ur.trials_total FREE_TRIALS then
      some { error := "Trial limit reached.", code := "TRIAL_LIMIT",
             trials_used := ur.trials_used,
             trials_total := jsOr ur.trials_total FREE_TRIALS }
    else none
  else none

/-- A row of the `users` table in the v3 schema (part_001), which meters
trials through `extra_trials` on top of the free quota. -/
structure UserV3 where
  id : Nat
  email : String
  role : String
  trials_used : Option Nat
  extra_trials : Option Nat
  subscribed : Bool
  sub_plan : Option String
  sub_expires : Option Int
  deriving Repr, DecidableEq

/-- v3 `totalTrialsAllowed` (part_001 lines 79–81):
`FREE_TRIALS + (u.extra_trials || 0)`. -/
def totalTrialsAllowed (u : UserV3) : Nat :=
  FREE_TRIALS + u.extra_trials.getD 0

/-- v3 `userCanAnalyze` (part_001 lines 83–91), with the handler time as
explicit `now`.  A missing user is `false`; an admin is `true`; a
subscribed user is allowed while the expiry (if any) lies in the future;
otherwise the trial meter decides. -/
def userCanAnalyze (now : Int) : Option UserV3 → Bool
  | none => false
  | some u =>
    if u.role = "admin" then true
    else if u.subscribed then
      match u.sub_expires with
      | none => true
      | some t => decide (now < t)
    else decide (u.trials_used.getD 0 < totalTrialsAllowed u)

/-- The lazy-expiry condition of v4 `refreshUser` (part_002 line 65):
subscribed, on the monthly plan, with a non-null expiry strictly in the
past. -/
def expiredMonthly (now : Int) (u : User) : Bool :=
  u.subscribed && u.sub_plan = some "monthly" &&
    (match u.sub_expires with
     | some t => decide (t < now)
     | none => false)

/-- The demotion v4 `refreshUser` applies, both to the stored row and to
the returned snapshot (part_002 lines 66–67). -/
def demote (u : User) : User :=
  { u with subscribed := false, sub_plan := none, sub_expires := none }

/-- v4 `refreshUser` (part_002 lines 62–70): fetch the user by id; demote
an expired monthly subscriber in the store and return the demoted
snapshot; otherwise return the row unchanged. -/
def refreshUser (now : Int) (st : Store) (uid : Nat) : Option User × Store :=
  match findUser st uid with
  | none => (none, st)
  | some u =>
    if expiredMonthly now u then
      (some (demote u), updateUser st uid demote)
    else (some u, st)

/-- JavaScript `s || d` on a nullable string (empty string is falsy). -/
def jsOrStr (o : Option String) (d : String) : String :=
  match o with
  | none => d
  | some s => if s = "" then d else s

/-- JavaScript `s || null` on a nullable string. -/
def jsOrNull (o : Option String) : Option String :=
  match o with
  | none => none
  | some s => if s = "" then none else some s

/-- Default `ADMIN_EMAIL` (v4 backend, line 22). -/
def ADMIN_EMAIL : String := "saikiranjinde49@gmail.com"

def MS_PER_DAY : Int := 86400000

/-- Outcome of the external Gemini (Analyzer) call as the v4 analyze
handler distinguishes it: HTTP failure (`!gr.ok` → 502), empty candidate
text (502), `parseGeminiJSON` throwing (caught → 500), or a parsed object
with its optional `projectTitle`. -/
inductive GeminiOutcome where
  | httpError
  | emptyResponse
  | unparsable
  | ok (projectTitle : Option String)
  deriving Repr, DecidableEq

/-- v4 `POST /api/analyze` after the entitlement gate (part_002 lines
159–179): on any Analyzer failure the handler returns an error response
with no store write; on success, for a non-admin, non-subscribed user it
writes `trials_used := ur.trials_used + 1` (an absolute value computed
from the snapshot `ur`), and in every userId-carrying case appends the
analysis audit row.  The second component is `true` exactly on the
success response. -/
def analyzeAfterGate (st : Store) (userId : Option Nat) (ur : Option User)
    (g : GeminiOutcome) : Store × Bool :=
  match g with
  | .httpError => (st, false)
  | .emptyResponse => (st, false)
  | .unparsable => (st, false)
  | .ok title =>
    match userId, ur with
    | some uid, some u =>
      if uid = 0 then (st, true)
      else
        let st1 := if u.role ≠ "admin" ∧ u.subscribed = false then
            updateUser st uid (fun r => { r with trials_used := u.trials_used + 1 })
          else st
        let st2 := { st1 with analyses := st1.analyses ++
          [{ user_id := some uid, email := u.email,
             project_title := jsOrStr title "Unknown" }] }
        (st2, true)
    | _, _ => (st, true)

/-- Which of the three Supabase writes of the v4 redemption mutation phase
fail.  The handler never inspects the result of these calls, so control
flow is identical either way; a failing write leaves its table unchanged. -/
structure FailSpec where
  couponUpdFails : Bool
  userUpdFails : Bool
  redemptionInsFails : Bool
  deriving Repr, DecidableEq

def noFail : FailSpec := ⟨false, false, false⟩

/-- The response of v4 `POST /api/coupons/redeem`, one constructor per
return site of the handler. -/
inductive RedeemResult where
  | codeRequired
  | loginRequired
  | notFound
  | inactive
  | exhausted
  | expired
  | alreadyUsed
  | success (typ : String) (trial_grant : Nat)
  deriving Repr, DecidableEq

/-- JavaScript `cp.expiry_date && new Date(cp.expiry_date) < new Date()`. -/
def expiryPast (now : Int) (o : Option Int) : Bool :=
  match o with
  | some t => decide (t < now)
  | none => false

/-- The mutation phase of v4 `POST /api/coupons/redeem` (part_002 lines
215–226), reached once steps 1–5 of the validation all passed: one coupon
update writing `uses := cp.uses + 1` and deactivating in the same update
when the increment reaches `max_uses`; one user update applying the grant
(extra trials on the re-fetched total when `trial_grant > 0`, otherwise
the subscription grant); one redemption insert — three independent
writes, in that order, whose failures `fs` the handler ignores before
reporting success. -/
def redeemMutation (now : Int) (fs : FailSpec) (st : Store) (cp : Coupon)
    (uid : Nat) : Store × RedeemResult :=
  let newUses := cp.uses + 1
  let newActive := if jsTruthy cp.max_uses && decide (newUses ≥ cp.max_uses.getD 0)
    then false else cp.active
  let st1 := if fs.couponUpdFails then st
    else updateCoupon st cp.id (fun r => { r with uses := newUses, active := newActive })
  let tg := cp.trial_grant.getD 0
  let st2 :=
    if tg > 0 then
      let base := match findUser st1 uid with
        | some u => jsOr u.trials_total FREE_TRIALS
        | none => FREE_TRIALS
      if fs.userUpdFails then st1
      else updateUser st1 uid (fun r => { r with trials_total := some (base + tg) })
    else
      let exp := if cp.plan_grant = some "monthly" then some (now + 30 * MS_PER_DAY)
        else none
      if fs.userUpdFails then st1
      else updateUser st1 uid (fun r =>
        { r with subscribed := true,
                 sub_plan := some (jsOrStr cp.plan_grant "one_time"),
                 sub_expires := exp })
  let st3 := if fs.redemptionInsFails then st2
    else { st2 with redemptions := st2.redemptions ++ [⟨cp.id, uid⟩] }
  (st3, .success (if tg > 0 then "trials" else "unlimited") tg)

/-- v4 `POST /api/coupons/redeem` (part_002 lines 203–228).  Steps: falsy
code / falsy userId → 400; look up the coupon by upper-cased code; the
`active`, exhaustion, expiry and prior-redemption checks in source order,
each returning with the store untouched; then the mutation phase
`redeemMutation`. -/
def redeemV4 (now : Int) (fs : FailSpec) (st : Store)
    (code : Option String) (userId : Option Nat) : Store × RedeemResult :=
  if jsStrFalsy code then (st, .codeRequired)
  else if jsIdFalsy userId then (st, .loginRequired)
  else
    let uid := userId.getD 0
    match findCouponByCode st (jsToUpper (jsTrim (code.getD ""))) with
    | none => (st, .notFound)
    | some cp =>
      if cp.active = false then (st, .inactive)
      else if jsTruthy cp.max_uses && decide (cp.uses ≥ cp.max_uses.getD 0) then
        (st, .exhausted)
      else if expiryPast now cp.expiry_date then (st, .expired)
      else if redemptionExists st cp.id uid then (st, .alreadyUsed)
      else redeemMutation now fs st cp uid

def findUserByEmail (st : Store) (em : String) : Option User :=
  findBy User.email em st.users

def updateUserByEmail (st : Store) (em : String) (f : User → User) : Store :=
  { st with users := updateBy User.email em f st.users }

/-- The response of v4 `POST /api/admin/payments/:id/verify`. -/
inductive VerifyResult where
  | notFound
  | alreadyVerified
  | success
  deriving Repr, DecidableEq

/-- `Math.max(1, parseInt(trialsToGrant) || 1)` — `none` stands for an
absent or non-numeric request field (`parseInt` gives `NaN`, falsy). -/
def ntOf (o : Option Int) : Nat :=
  (max 1 (match o with | none => 1 | some n => if n = 0 then 1 else n)).toNat

/-- v4 `POST /api/admin/payments/:id/verify` (part_002 lines 303–325):
fails on a missing payment or one already `verified`; otherwise marks the
payment verified (recording `trials_granted` as `null` for plan "99" and
as the clamped count otherwise), then applies the grant — a 30-day
monthly subscription for plan "99", or `nt` extra trials on top of the
re-fetched current total otherwise — to the user resolved by `user_id`
first, else by `email`; an unresolvable user silently skips the grant. -/
def verifyPayment (now : Int) (st : Store) (pid : Nat)
    (trialsToGrant : Option Int) (notes : Option String) : Store × VerifyResult :=
  match findPayment st pid with
  | none => (st, .notFound)
  | some pay =>
    if pay.status = "verified" then (st, .alreadyVerified)
    else
      let nt := ntOf trialsToGrant
      let st1 := updatePayment st pay.id (fun r =>
        { r with status := "verified", verified_at := some now,
                 verified_by := some ADMIN_EMAIL, notes := jsOrNull notes,
                 trials_granted := if pay.plan = "99" then none else some nt })
      if pay.plan = "99" then
        let grant : User → User := fun r =>
          { r with subscribed := true, sub_plan := some "monthly",
                   sub_expires := some (now + 30 * MS_PER_DAY) }
        if jsIdFalsy pay.user_id = false then
          (updateUser st1 (pay.user_id.getD 0) grant, .success)
        else if jsStrFalsy pay.email = false then
          (updateUserByEmail st1 (pay.email.getD "") grant, .success)
        else (st1, .success)
      else
        let p : Option Nat × Nat :=
          if jsIdFalsy pay.user_id = false then
            (pay.user_id,
             match findUser st1 (pay.user_id.getD 0) with
             | some u => jsOr u.trials_total FREE_TRIALS
             | none => FREE_TRIALS)
          else if jsStrFalsy pay.email = false then
            match findUserByEmail st1 (pay.email.getD "") with
            | some u => (some u.id, jsOr u.trials_total FREE_TRIALS)
            | none => (pay.user_id, FREE_TRIALS)
          else (pay.user_id, FREE_TRIALS)
        let grant : User → User := fun r => { r with trials_total := some (p.2 + nt) }
        if jsIdFalsy p.1 = false then (updateUser st1 (p.1.getD 0) grant, .success)
        else if jsStrFalsy pay.email = false then
          (updateUserByEmail st1 (pay.email.getD "") grant, .success)
        else (st1, .success)

/-- The `updates` recipe of v4 `PUT /api/admin/users/:id` (part_002 lines
278–286), dispatched on the `action` string; `u` is the refreshed
snapshot the handler read the current counters from; `none` models the
400 responses (unknown action, missing name). -/
def adminUserUpdates (now : Int) (u : User) (action : String)
    (daysToGrant trialsToAdd trialsTotal : Option Int) (name : Option String) :
    Option (User → User) :=
  if action = "grant_monthly" then
    let d := max 1 (match daysToGrant with | none => 30 | some n => if n = 0 then 30 else n)
    some (fun r => { r with subscribed := true, sub_plan := some "monthly",
                            sub_expires := some (now + d * MS_PER_DAY) })
  else if action = "grant_one_time" then
    some (fun r => { r with subscribed := true, sub_plan := some "one_time",
                            sub_expires := none })
  else if action = "add_trials" then
    let add := max 1 (match trialsToAdd with | none => 1 | some n => if n = 0 then 1 else n)
    some (fun r => { r with trials_total := some (jsOr u.trials_total FREE_TRIALS + add.toNat) })
  else if action = "set_trials" then
    let v := max 0 (match trialsTotal with
      | none => (FREE_TRIALS : Int)
      | some n => if n = 0 then (FREE_TRIALS : Int) else n)
    some (fun r => { r with trials_total := some v.toNat, trials_used := 0 })
  else if action = "reset_used" then
    some (fun r => { r with trials_used := 0 })
  else if action = "revoke_all" then
    some (fun r => { r with subscribed := false, sub_plan := none, sub_expires := none,
                            trials_total := some FREE_TRIALS, trials_used := 0 })
  else if action = "update_name" then
    if jsStrFalsy name || jsTrim (name.getD "") = "" then none
    else some (fun r => { r with name := jsTrim (name.getD "") })
  else none

/-- The user object v4 `formatUser` (part_002 lines 52–61) serialises. -/
structure FormattedUser where
  id : Nat
  email : String
  name : String
  role : String
  trials_used : Nat
  trials_total : Nat
  trials_left : Nat
  subscribed : Bool
  sub_plan : Option String
  sub_expires : Option Int
  days_remaining : Option Int
  deriving Repr, DecidableEq

/-- v4 `daysLeft` (part_002 lines 48–51):
`Math.max(0, Math.ceil((iso - now) / 86400000))`; the integer ceiling of
`a / b` for positive `b` is the floor of `(a + b - 1) / b`. -/
def daysLeft (now : Int) (iso : Option Int) : Option Int :=
  match iso with
  | none => none
  | some t => some (max 0 ((t - now + (MS_PER_DAY - 1)) / MS_PER_DAY))

/-- v4 `formatUser` (part_002 lines 52–61).  `u.trials_used || 0` is the
identity on our `Nat` field, and `Math.max(0, total - used)` is `Nat`
truncated subtraction. -/
def formatUser (now : Int) (u : User) : FormattedUser :=
  let trials_total := jsOr u.trials_total FREE_TRIALS
  let trials_used := u.trials_used
  { id := u.id, email := u.email, name := u.name, role := u.role,
    trials_used := trials_used, trials_total := trials_total,
    trials_left := trials_total - trials_used,
    subscribed := u.subscribed, sub_plan := u.sub_plan, sub_expires := u.sub_expires,
    days_remaining := if u.sub_plan = some "monthly" && u.sub_expires.isSome
      then daysLeft now u.sub_expires else none }

/-- The response of the v2 `POST /api/coupons/redeem` (src/server.js). -/
inductive RedeemV2Result where
  | codeRequired
  | notFound
  | inactive
  | exhausted
  | alreadyUsed
  | success (plan : Option String)
  deriving Repr, DecidableEq

/-- `coupons.select().ilike('code', code.trim())` — `ilike` with no
wildcard characters is case-insensitive equality. -/
def findCouponByCodeCI (st : Store) (code : String) : Option Coupon :=
  findBy (fun c => jsToLower c.code) (jsToLower code) st.coupons

/-- v2 `POST /api/coupons/redeem` (src/server.js lines 261–324): code
falsy → 400; case-insensitive coupon lookup; `active` then exhaustion
check (`coupon.uses >= coupon.max_uses`, where a `null` `max_uses`
coerces to 0); the prior-redemption check runs only when a `userId` was
supplied; the coupon update always runs; the user subscription grant and
the redemption insert run only under `if (userId)`. -/
def redeemV2 (now : Int) (st : Store) (code : Option String)
    (userId : Option Nat) : Store × RedeemV2Result :=
  if jsStrFalsy code then (st, .codeRequired)
  else
    match findCouponByCodeCI st (jsTrim (code.getD "")) with
    | none => (st, .notFound)
    | some coupon =>
      if coupon.active = false then (st, .inactive)
      else if coupon.uses ≥ coupon.max_uses.getD 0 then (st, .exhausted)
      else if jsIdFalsy userId = false ∧
          redemptionExists st coupon.id (userId.getD 0) then (st, .alreadyUsed)
      else
        let subExpires := if coupon.plan_grant = some "monthly"
          then some (now + 30 * MS_PER_DAY) else none
        let newUses := coupon.uses + 1
        let nowInactive := newUses ≥ coupon.max_uses.getD 0
        let st1 := updateCoupon st coupon.id (fun r =>
          { r with uses := newUses, active := if nowInactive then false else coupon.active })
        let st2 := if jsIdFalsy userId = false then
            let uid := userId.getD 0
            let st2a := updateUser st1 uid (fun r =>
              { r with subscribed := true, sub_plan := coupon.plan_grant,
                       sub_expires := subExpires })
            { st2a with redemptions := st2a.redemptions ++ [⟨coupon.id, uid⟩] }
          else st1
        (st2, .success coupon.plan_grant)

/-! ## Theorems -/

theorem findBy_updateBy_same {α β : Type} [DecidableEq β] (key : α → β) (k : β)
    (f : α → α) (l : List α) (hf : ∀ x, key (f x) = key x) :
    findBy key k (updateBy key k f l) = (findBy key k l).map f := by
  induction l with
  | nil => rfl
  | cons x xs ih =>
    by_cases h : key x = k
    · simp [findBy, updateBy, h, hf]
    · simp [findBy, updateBy, h, ih]

theorem findBy_updateBy_ne {α β : Type} [DecidableEq β] (key : α → β) (k k' : β)
    (f : α → α) (l : List α) (hf : ∀ x, key (f x) = key x) (hk : k ≠ k') :
    findBy key k (updateBy key k' f l) = findBy key k l := by
  induction l with
  | nil => rfl
  | cons x xs ih =>
    by_cases h2 : key x = k'
    · have hxk : ¬ key x = k := by rw [h2]; intro hc; exact hk hc.symm
      have hfx : ¬ key (f x) = k := by rw [hf, h2]; intro hc; exact hk hc.symm
      have hk2 : ¬ (k' = k) := fun hc => hk hc.symm
      simp [findBy, updateBy, h2, hxk, hfx, hk2, ih]
    · simp [findBy, updateBy, h2, ih]

theorem findUser_updateUser_same (st : Store) (uid : Nat) (f : User → User)
    (hf : ∀ x, (f x).id = x.id) :
    findUser (updateUser st uid f) uid = (findUser st uid).map f :=
  findBy_updateBy_same User.id uid f st.users hf

/-- Claim C1: the v4 pre-analysis entitlement gate passes exactly when the
user is an admin, or subscribed, or still has trials left against the
effective quota; every denial carries the trial-limit error.  On the v3
backend, `userCanAnalyze` agrees with the same disjunction whenever the
snapshot is normalized (subscribed implies unexpired). -/
theorem canAnalyze_characterization (u : User) (now : Int) (v : UserV3)
    (hv : v.subscribed = true →
      v.sub_expires = none ∨ ∃ t, v.sub_expires = some t ∧ now < t) :
    (analyzeGate u = none ↔
      u.role = "admin" ∨ u.subscribed = true ∨ u.trials_used < effTotal u)
    ∧ (∀ e, analyzeGate u = some e →
        e.error = "Trial limit reached." ∧ e.code = "TRIAL_LIMIT")
    ∧ (userCanAnalyze now (some v) = true ↔
      v.role = "admin" ∨ v.subscribed = true ∨
        v.trials_used.getD 0 < totalTrialsAllowed v) := by
  refine ⟨⟨?_, ?_⟩, ?_, ⟨?_, ?_⟩⟩
  · intro h
    unfold analyzeGate at h
    split_ifs at h with h1 h2
    · right; right; unfold effTotal; omega
    · rcases not_and_or.mp h1 with h | h
      · left; simpa using h
      · right; left; simpa using h
  · intro h
    unfold analyzeGate
    split_ifs with h1 h2
    · exfalso
      rcases h with h | h | h
      · exact h1.1 h
      · rw [h1.2] at h; cases h
      · unfold effTotal at h; omega
    · rfl
    · rfl
  · intro e he
    unfold analyzeGate at he
    split_ifs at he with h1 h2
    cases he
    exact ⟨rfl, rfl⟩
  · intro h
    simp only [userCanAnalyze] at h
    split_ifs at h with h1 h2
    · left; exact h1
    · right; left; exact h2
    · right; right; simpa using h
  · intro h
    simp only [userCanAnalyze]
    split_ifs with h1 h2
    · rfl
    · rcases hv h2 with he | ⟨t, ht, hlt⟩
      · simp [he]
      · simp [ht, hlt]
    · rcases h with h | h | h
      · exact absurd h h1
      · exact absurd h h2
      · simpa using h

/-- Closed instance of `canAnalyze_characterization`: an admin passes the
v4 gate, and a normalized v3 student with trials left can analyze. -/
theorem canAnalyze_characterization_witness :
    analyzeGate
      { id := 1, email := "a@b.c", name := "A", role := "admin",
        trials_total := some 3, trials_used := 9, subscribed := false,
        sub_plan := none, sub_expires := none } = none
    ∧ userCanAnalyze 0 (some
      { id := 2, email := "d@e.f", role := "student",
        trials_used := some 1, extra_trials := some 2, subscribed := false,
        sub_plan := none, sub_expires := none }) = true := by
  have h := canAnalyze_characterization
    { id := 1, email := "a@b.c", name := "A", role := "admin",
      trials_total := some 3, trials_used := 9, subscribed := false,
      sub_plan := none, sub_expires := none } 0
    { id := 2, email := "d@e.f", role := "student",
      trials_used := some 1, extra_trials := some 2, subscribed := false,
      sub_plan := none, sub_expires := none }
    (fun hc => Bool.noConfusion hc)
  exact ⟨h.1.mpr (Or.inl rfl), h.2.2.mpr (Or.inr (Or.inr (by decide)))⟩

/-- Claim C6: `refreshUser` demotes exactly those users who are subscribed
on the monthly plan with a non-null `sub_expires` strictly in the past —
persisting and returning `subscribed = false, sub_plan = null,
sub_expires = null` — returns every other snapshot unchanged, and is
idempotent: a second run on the resulting store is a no-op returning the
same snapshot. -/
theorem refreshUser_normalize (now : Int) (st : Store) (uid : Nat) (u : User)
    (h : findUser st uid = some u) :
    (expiredMonthly now u = true →
      refreshUser now st uid = (some (demote u), updateUser st uid demote)
      ∧ findUser (refreshUser now st uid).2 uid = some (demote u)
      ∧ (demote u).subscribed = false ∧ (demote u).sub_plan = none
      ∧ (demote u).sub_expires = none)
    ∧ (expiredMonthly now u = false → refreshUser now st uid = (some u, st))
    ∧ refreshUser now (refreshUser now st uid).2 uid = refreshUser now st uid := by
  have hfind : findUser (updateUser st uid demote) uid = some (demote u) := by
    have hf := findBy_updateBy_same User.id uid demote st.users (fun x => rfl)
    simp only [findUser, updateUser] at *
    rw [hf, h]
    rfl
  by_cases hc : expiredMonthly now u = true
  · have hrun : refreshUser now st uid = (some (demote u), updateUser st uid demote) := by
      simp [refreshUser, h, hc]
    refine ⟨fun _ => ⟨hrun, ?_, rfl, rfl, rfl⟩,
      fun hc2 => absurd hc (by rw [hc2]; exact Bool.noConfusion),
      ?_⟩
    · rw [hrun]; exact hfind
    · rw [hrun]
      have hdem : expiredMonthly now (demote u) = false := by
        simp [expiredMonthly, demote]
      simp [refreshUser, hfind, hdem]
  · have hc0 : expiredMonthly now u = false := by
      revert hc
      cases expiredMonthly now u <;> simp
    have hrun : refreshUser now st uid = (some u, st) := by
      simp [refreshUser, h, hc0]
    exact ⟨fun hc2 => absurd hc2 hc, fun _ => hrun, by rw [hrun]; exact hrun⟩

/-- Closed instance of `refreshUser_normalize`: an expired monthly
subscriber is demoted on the next read. -/
theorem refreshUser_normalize_witness :
    (refreshUser 100
      ⟨[{ id := 1, email := "x@y.z", name := "X", role := "student",
          trials_total := some 3, trials_used := 0, subscribed := true,
          sub_plan := some "monthly", sub_expires := some 50 }], [], [], [], []⟩ 1).1
      = some (demote
      { id := 1, email := "x@y.z", name := "X", role := "student",
        trials_total := some 3, trials_used := 0, subscribed := true,
        sub_plan := some "monthly", sub_expires := some 50 }) := by
  have h := refreshUser_normalize 100
    ⟨[{ id := 1, email := "x@y.z", name := "X", role := "student",
        trials_total := some 3, trials_used := 0, subscribed := true,
        sub_plan := some "monthly", sub_expires := some 50 }], [], [], [], []⟩ 1
    { id := 1, email := "x@y.z", name := "X", role := "student",
      trials_total := some 3, trials_used := 0, subscribed := true,
      sub_plan := some "monthly", sub_expires := some 50 }
    (by decide)
  rw [(h.1 (by decide)).1]

/-- Claim C2: one invocation of the v4 analyze commit (the handler code
after the entitlement gate, operating on the refreshed snapshot): on
Analyzer success, `trials_used` grows by exactly 1 for a non-admin,
non-subscribed user, and the users table is untouched for an admin or
subscribed user; on an Analyzer failure (HTTP error, empty response, or
unparsable output) the store is entirely unchanged — a failed analysis
never consumes a trial. -/
theorem analyze_trial_consumption (st : Store) (uid : Nat) (u : User)
    (g : GeminiOutcome) (hu : findUser st uid = some u) (h0 : uid ≠ 0) :
    (g = .httpError ∨ g = .emptyResponse ∨ g = .unparsable →
      analyzeAfterGate st (some uid) (some u) g = (st, false))
    ∧ (∀ title, g = .ok title →
      (u.role ≠ "admin" ∧ u.subscribed = false →
        findUser (analyzeAfterGate st (some uid) (some u) g).1 uid
          = some { u with trials_used := u.trials_used + 1 })
      ∧ ((u.role = "admin" ∨ u.subscribed = true) →
        (analyzeAfterGate st (some uid) (some u) g).1.users = st.users)) := by
  constructor
  · rintro (rfl | rfl | rfl) <;> rfl
  · rintro title rfl
    constructor
    · intro hcond
      have hf := findBy_updateBy_same User.id uid
        (fun r => { r with trials_used := u.trials_used + 1 }) st.users (fun x => rfl)
      simp only [analyzeAfterGate, if_neg h0, if_pos hcond]
      simp only [findUser, updateUser] at *
      rw [hf, hu]
      rfl
    · intro hcond
      have hcond2 : ¬ (u.role ≠ "admin" ∧ u.subscribed = false) := by
        rcases hcond with h | h
        · exact fun hc => hc.1 h
        · exact fun hc => by rw [h] at hc; exact Bool.noConfusion hc.2
      simp only [analyzeAfterGate, if_neg h0, if_neg hcond2]

/-- Closed instance of `analyze_trial_consumption`: a failed Analyzer call
leaves the store unchanged, and a successful one charges the student one
trial. -/
theorem analyze_trial_consumption_witness :
    analyzeAfterGate
      ⟨[{ id := 5, email := "s@t.u", name := "S", role := "student",
                trials_total := some 3, trials_used := 1, subscribed := false,
                sub_plan := none, sub_expires := none }], [], [], [], []⟩ (some 5)
      (some { id := 5, email := "s@t.u", name := "S", role := "student",
                trials_total := some 3, trials_used := 1, subscribed := false,
                sub_plan := none, sub_expires := none }) .httpError
      = (⟨[{ id := 5, email := "s@t.u", name := "S", role := "student",
                trials_total := some 3, trials_used := 1, subscribed := false,
                sub_plan := none, sub_expires := none }], [], [], [], []⟩, false)
    ∧ findUser (analyzeAfterGate
      ⟨[{ id := 5, email := "s@t.u", name := "S", role := "student",
                trials_total := some 3, trials_used := 1, subscribed := false,
                sub_plan := none, sub_expires := none }], [], [], [], []⟩ (some 5)
      (some { id := 5, email := "s@t.u", name := "S", role := "student",
                trials_total := some 3, trials_used := 1, subscribed := false,
                sub_plan := none, sub_expires := none }) (.ok (some "P"))).1 5
      = some { id := 5, email := "s@t.u", name := "S", role := "student",
                trials_total := some 3, trials_used := 2, subscribed := false,
                sub_plan := none, sub_expires := none } := by
  have h := analyze_trial_consumption
    ⟨[{ id := 5, email := "s@t.u", name := "S", role := "student",
        trials_total := some 3, trials_used := 1, subscribed := false,
        sub_plan := none, sub_expires := none }], [], [], [], []⟩ 5
    { id := 5, email := "s@t.u", name := "S", role := "student",
      trials_total := some 3, trials_used := 1, subscribed := false,
      sub_plan := none, sub_expires := none } .httpError
    (by decide) (by decide)
  have h2 := analyze_trial_consumption
    ⟨[{ id := 5, email := "s@t.u", name := "S", role := "student",
        trials_total := some 3, trials_used := 1, subscribed := false,
        sub_plan := none, sub_expires := none }], [], [], [], []⟩ 5
    { id := 5, email := "s@t.u", name := "S", role := "student",
      trials_total := some 3, trials_used := 1, subscribed := false,
      sub_plan := none, sub_expires := none } (.ok (some "P"))
    (by decide) (by decide)
  refine ⟨h.1 (Or.inl rfl), ?_⟩
  rw [(h2.2 (some "P") rfl).1 (by exact ⟨by decide, rfl⟩)]

theorem findBy_eq_key {α β : Type} [DecidableEq β] (key : α → β) (k : β)
    (l : List α) (x : α) (h : findBy key k l = some x) : key x = k := by
  induction l with
  | nil => cases h
  | cons y ys ih =>
    unfold findBy at h
    split_ifs at h with hy
    · cases h; exact hy
    · exact ih h

theorem ntOf_some (n : Int) : ntOf (some n) = (max 1 n).toNat := by
  by_cases h : n = 0
  · subst h; decide
  · simp [ntOf, h]

/-- Claim C7: verifying an already-verified payment fails and changes
nothing; otherwise a plan "99" payment subscribes the target user to
monthly until `now + 30` days and records `trials_granted = null`, while
a plan "10" payment with `trialsToGrant = n` raises the re-fetched
effective `trials_total` by exactly `max(n, 1)` and records that count on
the payment. -/
theorem verifyPayment_spec (now : Int) (st : Store) (pid : Nat) (pay : Payment)
    (tg : Option Int) (notes : Option String)
    (hp : findPayment st pid = some pay) :
    (pay.status = "verified" →
      verifyPayment now st pid tg notes = (st, .alreadyVerified))
    ∧ (pay.status ≠ "verified" → pay.plan = "99" →
       ∀ uid u, pay.user_id = some uid → uid ≠ 0 → findUser st uid = some u →
        findUser (verifyPayment now st pid tg notes).1 uid
          = some { u with subscribed := true, sub_plan := some "monthly",
                          sub_expires := some (now + 30 * MS_PER_DAY) }
        ∧ findPayment (verifyPayment now st pid tg notes).1 pid
          = some { pay with status := "verified", verified_at := some now,
                            verified_by := some ADMIN_EMAIL,
                            notes := jsOrNull notes, trials_granted := none })
    ∧ (pay.status ≠ "verified" → pay.plan = "10" →
       ∀ uid u n, pay.user_id = some uid → uid ≠ 0 → findUser st uid = some u →
        tg = some n →
        findUser (verifyPayment now st pid tg notes).1 uid
          = some { u with trials_total := some (effTotal u + (max 1 n).toNat) }
        ∧ findPayment (verifyPayment now st pid tg notes).1 pid
          = some { pay with status := "verified", verified_at := some now,
                            verified_by := some ADMIN_EMAIL,
                            notes := jsOrNull notes,
                            trials_granted := some (max 1 n).toNat }
        ∧ effTotal { u with trials_total := some (effTotal u + (max 1 n).toNat) }
            = effTotal u + (max 1 n).toNat) := by
  have hpid : pay.id = pid := findBy_eq_key Payment.id pid st.payments pay hp
  refine ⟨?_, ?_, ?_⟩
  · intro hv
    simp [verifyPayment, hp, hv]
  · intro hnv h99 uid u huid h0 hu
    have hufs : jsIdFalsy (some uid) = false := by simp [jsIdFalsy, h0]
    constructor
    · have hf := findBy_updateBy_same User.id uid
        (fun r => { r with subscribed := true, sub_plan := some "monthly",
                           sub_expires := some (now + 30 * MS_PER_DAY) })
        st.users (fun x => rfl)
      simp only [findUser, updateUser, updatePayment] at hu hf ⊢
      simp [verifyPayment, hp, hnv, h99, huid, hufs, findUser, updateUser,
        updatePayment]
      rw [hf, hu]
      rfl
    · have hfp := findBy_updateBy_same Payment.id pid
        (fun r => { r with status := "verified", verified_at := some now,
                           verified_by := some ADMIN_EMAIL, notes := jsOrNull notes,
                           trials_granted := if pay.plan = "99" then none else some (ntOf tg) })
        st.payments (fun x => rfl)
      simp only [h99, if_true] at hfp
      simp only [findPayment, updatePayment] at hp hfp ⊢
      simp [verifyPayment, hp, hnv, h99, huid, hufs, findPayment, updateUser,
        updatePayment, hpid]
      rw [hfp, hp]
      simp [hpid, huid, h99]
  · intro hnv h10 uid u n huid h0 hu htg
    have h99 : ¬ pay.plan = "99" := by rw [h10]; decide
    have hufs : jsIdFalsy (some uid) = false := by simp [jsIdFalsy, h0]
    have hnt : ntOf tg = (max 1 n).toNat := by rw [htg, ntOf_some]
    refine ⟨?_, ?_, ?_⟩
    · have hf := findBy_updateBy_same User.id uid
        (fun r => { r with
                    trials_total := some (jsOr u.trials_total FREE_TRIALS + ntOf tg) })
        st.users (fun x => rfl)
      simp only [findUser, updateUser, updatePayment] at hu hf ⊢
      simp [verifyPayment, hp, hnv, h99, huid, hufs, findUser, updateUser,
        updatePayment, hu]
      rw [hf, hu, hnt]
      simp [effTotal]
    · have hfp := findBy_updateBy_same Payment.id pid
        (fun r => { r with status := "verified", verified_at := some now,
                           verified_by := some ADMIN_EMAIL, notes := jsOrNull notes,
                           trials_granted := if pay.plan = "99" then none else some (ntOf tg) })
        st.payments (fun x => rfl)
      simp only [if_neg h99] at hfp
      simp only [findPayment, updatePayment] at hp hfp ⊢
      simp [verifyPayment, hp, hnv, h99, huid, hufs, findPayment, updateUser,
        updatePayment, hpid, hu]
      rw [hfp, hp]
      simp [hpid, huid, h99, hnt, h10]
    · have hpos : 0 < (max 1 n).toNat := by
        have h1 : (1 : Int) ≤ max 1 n := le_max_left 1 n
        omega
      have hX : ¬ (effTotal u + (max 1 n).toNat = 0) := by omega
      show jsOr (some (effTotal u + (max 1 n).toNat)) FREE_TRIALS
          = effTotal u + (max 1 n).toNat
      simp only [jsOr]
      rw [if_neg hX]

/-- Closed instance of `verifyPayment_spec`: scenario C (plan "99") and
scenario D (plan "10", five trials on a quota of 3). -/
theorem verifyPayment_spec_witness :
    findUser (verifyPayment 0
      ⟨[{ id := 9, email := "p@q.r", name := "P", role := "student",
              trials_total := some 3, trials_used := 0, subscribed := false,
              sub_plan := none, sub_expires := none }], [], [],
        [{ id := 4, user_id := some 9, email := some "p@q.r", plan := "10",
              status := "pending", trials_granted := none, verified_at := none,
              verified_by := none, notes := none }], []⟩
      4 (some 5) none).1 9
    = some { id := 9, email := "p@q.r", name := "P", role := "student",
              trials_total := some 8, trials_used := 0, subscribed := false,
              sub_plan := none, sub_expires := none }
    ∧ findUser (verifyPayment 0
      ⟨[{ id := 9, email := "p@q.r", name := "P", role := "student",
              trials_total := some 3, trials_used := 0, subscribed := false,
              sub_plan := none, sub_expires := none }], [], [],
        [{ id := 4, user_id := some 9, email := some "p@q.r", plan := "99",
              status := "pending", trials_granted := none, verified_at := none,
              verified_by := none, notes := none }], []⟩
      4 none none).1 9
    = some { id := 9, email := "p@q.r", name := "P", role := "student",
              trials_total := some 3, trials_used := 0, subscribed := true,
              sub_plan := some "monthly", sub_expires := some (30 * MS_PER_DAY) } := by
  have hd := (verifyPayment_spec 0
    ⟨[{ id := 9, email := "p@q.r", name := "P", role := "student",
            trials_total := some 3, trials_used := 0, subscribed := false,
            sub_plan := none, sub_expires := none }], [], [],
      [{ id := 4, user_id := some 9, email := some "p@q.r", plan := "10",
            status := "pending", trials_granted := none, verified_at := none,
            verified_by := none, notes := none }], []⟩
    4
    { id := 4, user_id := some 9, email := some "p@q.r", plan := "10",
      status := "pending", trials_granted := none, verified_at := none,
      verified_by := none, notes := none }
    (some 5) none (by decide)).2.2 (by decide) rfl 9
    { id := 9, email := "p@q.r", name := "P", role := "student",
      trials_total := some 3, trials_used := 0, subscribed := false,
      sub_plan := none, sub_expires := none }
    5 rfl (by decide) (by decide) rfl
  have hc := (verifyPayment_spec 0
    ⟨[{ id := 9, email := "p@q.r", name := "P", role := "student",
            trials_total := some 3, trials_used := 0, subscribed := false,
            sub_plan := none, sub_expires := none }], [], [],
      [{ id := 4, user_id := some 9, email := some "p@q.r", plan := "99",
            status := "pending", trials_granted := none, verified_at := none,
            verified_by := none, notes := none }], []⟩
    4
    { id := 4, user_id := some 9, email := some "p@q.r", plan := "99",
      status := "pending", trials_granted := none, verified_at := none,
      verified_by := none, notes := none }
    none none (by decide)).2.1 (by decide) rfl 9
    { id := 9, email := "p@q.r", name := "P", role := "student",
      trials_total := some 3, trials_used := 0, subscribed := false,
      sub_plan := none, sub_expires := none }
    rfl (by decide) (by decide)
  constructor
  · rw [hd.1]
    decide
  · rw [hc.1]
    decide

/-- Claim C8 counterexample: the admin `set_trials` action with input
`n = 0` stores the free default 3, not `max(0, 0) = 0` — the zero input
is falsy to `parseInt(trialsTotal) || FREE_TRIALS` and falls back. -/
theorem set_trials_zero_counterexample :
    (adminUserUpdates 0
      { id := 1, email := "z@z.z", name := "Z", role := "student",
        trials_total := some 5, trials_used := 2, subscribed := false,
        sub_plan := none, sub_expires := none }
      "set_trials" none none (some 0) none).map (fun f => f
      { id := 1, email := "z@z.z", name := "Z", role := "student",
        trials_total := some 5, trials_used := 2, subscribed := false,
        sub_plan := none, sub_expires := none })
    = some { id := 1, email := "z@z.z", name := "Z", role := "student",
             trials_total := some 3, trials_used := 0, subscribed := false,
             sub_plan := none, sub_expires := none }
    ∧ (3 : Nat) ≠ 0 := by
  exact ⟨by decide, by decide⟩

/-- Claim C8 (amended): the `set_trials` action writes
`trials_total = max(n, 0)` for every nonzero integer input `n`, while the
input 0 (like a missing or non-numeric input) falls back to the free
default 3; `trials_used` is simultaneously reset to 0 and every other
user field is unchanged. -/
theorem set_trials_amended (now : Int) (u : User) (n : Int)
    (dg ta : Option Int) (nm : Option String) :
    (adminUserUpdates now u "set_trials" dg ta (some n) nm).map (fun f => f u)
      = some { u with
          trials_total := some (max 0 (if n = 0 then (FREE_TRIALS : Int) else n)).toNat,
          trials_used := 0 }
    ∧ (n ≠ 0 →
        (max 0 (if n = 0 then (FREE_TRIALS : Int) else n)).toNat = (max 0 n).toNat)
    ∧ (n = 0 →
        (max 0 (if n = 0 then (FREE_TRIALS : Int) else n)).toNat = FREE_TRIALS) := by
  refine ⟨rfl, ?_, ?_⟩
  · intro h
    rw [if_neg h]
  · intro h
    rw [if_pos h]
    decide

/-- Closed instance of `set_trials_amended` at `n = -4`: the quota is
clamped to 0 and `trials_used` resets. -/
theorem set_trials_amended_witness :
    (adminUserUpdates 0
      { id := 1, email := "z@z.z", name := "Z", role := "student",
        trials_total := some 5, trials_used := 2, subscribed := false,
        sub_plan := none, sub_expires := none }
      "set_trials" none none (some (-4)) none).map (fun f => f
      { id := 1, email := "z@z.z", name := "Z", role := "student",
        trials_total := some 5, trials_used := 2, subscribed := false,
        sub_plan := none, sub_expires := none })
    = some { id := 1, email := "z@z.z", name := "Z", role := "student",
             trials_total := some 0, trials_used := 0, subscribed := false,
             sub_plan := none, sub_expires := none }
    ∧ (max 0 (-4 : Int)).toNat = 0 := by
  have h := set_trials_amended 0
    { id := 1, email := "z@z.z", name := "Z", role := "student",
      trials_total := some 5, trials_used := 2, subscribed := false,
      sub_plan := none, sub_expires := none }
    (-4) none none none
  have h2 := h.2.1 (by decide)
  constructor
  · rw [h.1, h2]
    decide
  · decide

/-- Claim C9: whenever the stored `trials_total` is null or 0, the
pre-analysis gate, `formatUser`, and the `add_trials` base computation all
substitute the free quota 3; a user with stored quota 0 and fewer than 3
used trials passes the gate; and no user ever has an effective quota
of 0. -/
theorem trials_total_fallback (u : User) (now : Int) (n : Int)
    (h : u.trials_total = none ∨ u.trials_total = some 0) :
    effTotal u = FREE_TRIALS
    ∧ (formatUser now u).trials_total = FREE_TRIALS
    ∧ (adminUserUpdates now u "add_trials" none (some n) none none).map
        (fun f => (f u).trials_total)
      = some (some (FREE_TRIALS + (max 1 (if n = 0 then 1 else n)).toNat))
    ∧ (u.role ≠ "admin" → u.subscribed = false → u.trials_used < FREE_TRIALS →
        analyzeGate u = none)
    ∧ (∀ v : User, effTotal v ≠ 0) := by
  have he : effTotal u = FREE_TRIALS := by
    rcases h with h | h <;> simp [effTotal, jsOr, h]
  refine ⟨he, ?_, ?_, ?_, ?_⟩
  · simpa [formatUser] using he
  · have hj : jsOr u.trials_total FREE_TRIALS = FREE_TRIALS := he
    simp [adminUserUpdates, hj]
  · intro hr hs hlt
    have hge : ¬ (u.trials_used ≥ jsOr u.trials_total FREE_TRIALS) := by
      rw [show jsOr u.trials_total FREE_TRIALS = FREE_TRIALS from he]
      omega
    simp [analyzeGate, hr, hs, hge]
  · intro v
    rcases hv : v.trials_total with _ | m
    · simp [effTotal, jsOr, hv, FREE_TRIALS]
    · simp only [effTotal, jsOr, hv]
      split_ifs with hm
      · simp [FREE_TRIALS]
      · exact hm

/-- Closed instance of `trials_total_fallback`: a student with stored
quota 0 and one used trial still passes the gate, and is shown a quota
of 3. -/
theorem trials_total_fallback_witness :
    analyzeGate
      { id := 3, email := "q@r.s", name := "Q", role := "student",
        trials_total := some 0, trials_used := 1, subscribed := false,
        sub_plan := none, sub_expires := none } = none
    ∧ (formatUser 0
      { id := 3, email := "q@r.s", name := "Q", role := "student",
        trials_total := some 0, trials_used := 1, subscribed := false,
        sub_plan := none, sub_expires := none }).trials_total = 3 := by
  have h := trials_total_fallback
    { id := 3, email := "q@r.s", name := "Q", role := "student",
      trials_total := some 0, trials_used := 1, subscribed := false,
      sub_plan := none, sub_expires := none }
    0 1 (Or.inr rfl)
  exact ⟨h.2.2.2.1 (by decide) rfl (by decide), h.2.1⟩

/-- Claim C10: in the v2 backend, redeeming a valid, active, non-exhausted
coupon with no `userId` still increments the coupon uses counter (with the
possible deactivation) and answers success, while the users table and the
redemptions table are untouched — the counter advances with no matching
redemption record. -/
theorem redeemV2_anonymous (now : Int) (st : Store) (s : String) (cp : Coupon)
    (hs : s ≠ "")
    (hcp : findCouponByCodeCI st (jsTrim s) = some cp)
    (hcid : findCoupon st cp.id = some cp)
    (hact : cp.active = true)
    (hex : ¬ cp.uses ≥ cp.max_uses.getD 0) :
    (redeemV2 now st (some s) none).2 = .success cp.plan_grant
    ∧ (redeemV2 now st (some s) none).1.users = st.users
    ∧ (redeemV2 now st (some s) none).1.redemptions = st.redemptions
    ∧ findCoupon (redeemV2 now st (some s) none).1 cp.id
        = some { cp with uses := cp.uses + 1,
                         active := if cp.uses + 1 ≥ cp.max_uses.getD 0 then false
                                   else cp.active } := by
  have hrun : redeemV2 now st (some s) none
      = (updateCoupon st cp.id (fun r =>
          { r with uses := cp.uses + 1,
                   active := if cp.uses + 1 ≥ cp.max_uses.getD 0 then false
                             else cp.active }),
         .success cp.plan_grant) := by
    simp [redeemV2, jsStrFalsy, hs, hcp, hact, hex, jsIdFalsy]
  refine ⟨by rw [hrun], by rw [hrun]; rfl, by rw [hrun]; rfl, ?_⟩
  rw [hrun]
  have hf := findBy_updateBy_same Coupon.id cp.id
    (fun r => { r with uses := cp.uses + 1,
                       active := if cp.uses + 1 ≥ cp.max_uses.getD 0 then false
                                 else cp.active })
    st.coupons (fun x => rfl)
  simp only [findCoupon, updateCoupon] at hcid hf ⊢
  rw [hf, hcid]
  rfl

/-- Closed instance of `redeemV2_anonymous`: an anonymous redemption of a
live coupon advances its counter with no redemption row. -/
theorem redeemV2_anonymous_witness :
    (redeemV2 0
      ⟨[{ id := 7, email := "u@v.w", name := "U", role := "student",
              trials_total := some 3, trials_used := 0, subscribed := false,
              sub_plan := none, sub_expires := none }],
        [{ id := 1, code := "VS-FREE", active := true, max_uses := some 5,
              uses := 1, trial_grant := none, plan_grant := some "monthly",
              expiry_date := none }], [], [], []⟩
      (some "VS-FREE") none).2 = RedeemV2Result.success (some "monthly")
    ∧ findCoupon (redeemV2 0
      ⟨[{ id := 7, email := "u@v.w", name := "U", role := "student",
              trials_total := some 3, trials_used := 0, subscribed := false,
              sub_plan := none, sub_expires := none }],
        [{ id := 1, code := "VS-FREE", active := true, max_uses := some 5,
              uses := 1, trial_grant := none, plan_grant := some "monthly",
              expiry_date := none }], [], [], []⟩
      (some "VS-FREE") none).1 1
      = some { id := 1, code := "VS-FREE", active := true, max_uses := some 5,
               uses := 2, trial_grant := none, plan_grant := some "monthly",
               expiry_date := none }
    ∧ (redeemV2 0
      ⟨[{ id := 7, email := "u@v.w", name := "U", role := "student",
              trials_total := some 3, trials_used := 0, subscribed := false,
              sub_plan := none, sub_expires := none }],
        [{ id := 1, code := "VS-FREE", active := true, max_uses := some 5,
              uses := 1, trial_grant := none, plan_grant := some "monthly",
              expiry_date := none }], [], [], []⟩
      (some "VS-FREE") none).1.redemptions = [] := by
  have h := redeemV2_anonymous 0
    ⟨[{ id := 7, email := "u@v.w", name := "U", role := "student",
            trials_total := some 3, trials_used := 0, subscribed := false,
            sub_plan := none, sub_expires := none }],
      [{ id := 1, code := "VS-FREE", active := true, max_uses := some 5,
            uses := 1, trial_grant := none, plan_grant := some "monthly",
            expiry_date := none }], [], [], []⟩
    "VS-FREE"
    { id := 1, code := "VS-FREE", active := true, max_uses := some 5,
      uses := 1, trial_grant := none, plan_grant := some "monthly",
      expiry_date := none }
    (by decide) (by decide) (by decide) (by decide) (by decide)
  refine ⟨h.1, ?_, h.2.2.1⟩
  rw [h.2.2.2]
  decide

theorem pairCount_eq_zero_of_not_exists (st : Store) (cid uid : Nat)
    (h : redemptionExists st cid uid = false) : pairCount st cid uid = 0 := by
  unfold pairCount
  rw [List.length_eq_zero, List.filter_eq_nil_iff]
  intro a ha
  unfold redemptionExists at h
  rw [List.any_eq_false] at h
  exact fun hc => (h a ha) hc

/-- The mutation phase either fails its redemption insert (table
unchanged) or appends exactly the one row for its pair. -/
theorem redeemMutation_redemptions (now : Int) (fs : FailSpec) (st : Store)
    (cp : Coupon) (uid : Nat) :
    (redeemMutation now fs st cp uid).1.redemptions = st.redemptions
    ∨ (redeemMutation now fs st cp uid).1.redemptions
        = st.redemptions ++ [⟨cp.id, uid⟩] := by
  simp only [redeemMutation]
  cases hins : fs.redemptionInsFails
  · right
    simp only [Bool.false_eq_true, if_false]
    split_ifs <;> rfl
  · left
    simp only [if_true]
    split_ifs <;> rfl

/-- When the coupon write goes through, the mutation phase rewrites the
coupon row with the increment and the conditional deactivation, in one
update. -/
theorem redeemMutation_coupons (now : Int) (fs : FailSpec) (st : Store)
    (cp : Coupon) (uid : Nat) (h : fs.couponUpdFails = false) :
    (redeemMutation now fs st cp uid).1.coupons
      = updateBy Coupon.id cp.id
          (fun r => { r with uses := cp.uses + 1,
                             active := if jsTruthy cp.max_uses &&
                                 decide (cp.uses + 1 ≥ cp.max_uses.getD 0)
                               then false else cp.active })
          st.coupons := by
  simp only [redeemMutation, h, Bool.false_eq_true, if_false]
  split_ifs <;> rfl

/-- Control-flow fact about v4 redemption: one run either leaves the
redemptions table unchanged, or — having passed the prior-redemption
check for the pair — appends exactly one row for that pair. -/
theorem redeemV4_redemptions_cases (now : Int) (fs : FailSpec) (st : Store)
    (code : Option String) (userId : Option Nat) :
    (redeemV4 now fs st code userId).1.redemptions = st.redemptions
    ∨ ∃ cid uid, redemptionExists st cid uid = false
        ∧ (redeemV4 now fs st code userId).1.redemptions
            = st.redemptions ++ [⟨cid, uid⟩] := by
  simp only [redeemV4]
  split_ifs with h1 h2
  · left; rfl
  · left; rfl
  · split
    · left; rfl
    · rename_i cp heq
      split_ifs with ha hex hexp hred
      · left; rfl
      · left; rfl
      · left; rfl
      · left; rfl
      · rcases redeemMutation_redemptions now fs st cp (userId.getD 0) with h | h
        · left; exact h
        · right
          refine ⟨cp.id, userId.getD 0, ?_, h⟩
          simp only [Bool.not_eq_true] at hred
          exact hred

/-- Claim C4 counterexample: after a user redeems a single-use coupon,
the same user redeeming again is rejected with the CouponInactive error
("Coupon is no longer active."), not AlreadyRedeemed — the `active` check
runs before the prior-redemption check, and the first redemption
deactivated the coupon. -/
theorem already_redeemed_error_counterexample :
    redemptionExists (redeemV4 0 noFail
      ⟨[{ id := 7, email := "u@v.w", name := "U", role := "student",
              trials_total := some 3, trials_used := 0, subscribed := false,
              sub_plan := none, sub_expires := none }],
        [{ id := 1, code := "VS-ONE", active := true, max_uses := some 1,
              uses := 0, trial_grant := some 2, plan_grant := some "trials",
              expiry_date := none }], [], [], []⟩
      (some "VS-ONE") (some 7)).1 1 7 = true
    ∧ (redeemV4 0 noFail (redeemV4 0 noFail
      ⟨[{ id := 7, email := "u@v.w", name := "U", role := "student",
              trials_total := some 3, trials_used := 0, subscribed := false,
              sub_plan := none, sub_expires := none }],
        [{ id := 1, code := "VS-ONE", active := true, max_uses := some 1,
              uses := 0, trial_grant := some 2, plan_grant := some "trials",
              expiry_date := none }], [], [], []⟩
      (some "VS-ONE") (some 7)).1 (some "VS-ONE") (some 7)).2
      = RedeemResult.inactive
    ∧ RedeemResult.inactive ≠ RedeemResult.alreadyUsed := by decide

/-- Claim C4 (amended): one redemption step can only grow the row count of
a `(coupon, user)` pair from zero to one — a pair once redeemed is never
inserted again, so at most one `CouponRedemption` row can ever exist per
pair; and once a redemption row for the pair exists, every later attempt
by the same user fails leaving the store unchanged — with AlreadyRedeemed
when the coupon is still active, unexhausted and unexpired, and otherwise
with the coupon-level error that is checked first. -/
theorem redeem_single_use_amended (now : Int) (fs : FailSpec) (st : Store)
    (code : Option String) (userId : Option Nat) :
    (∀ cid uid2, pairCount (redeemV4 now fs st code userId).1 cid uid2
        ≤ max (pairCount st cid uid2) 1)
    ∧ (∀ s uid cp, code = some s → s ≠ "" → userId = some uid → uid ≠ 0 →
        findCouponByCode st (jsToUpper (jsTrim s)) = some cp →
        redemptionExists st cp.id uid = true →
        (redeemV4 now fs st code userId).1 = st
        ∧ (∀ t g, (redeemV4 now fs st code userId).2 ≠ .success t g)
        ∧ (cp.active = true →
           (jsTruthy cp.max_uses && decide (cp.uses ≥ cp.max_uses.getD 0)) = false →
           expiryPast now cp.expiry_date = false →
           (redeemV4 now fs st code userId).2 = .alreadyUsed)) := by
  constructor
  · intro cid uid2
    rcases redeemV4_redemptions_cases now fs st code userId with h | ⟨c3, u3, hne, happ⟩
    · have heq : pairCount (redeemV4 now fs st code userId).1 cid uid2
          = pairCount st cid uid2 := by
        unfold pairCount; rw [h]
      rw [heq]; exact le_max_left _ _
    · unfold pairCount
      rw [happ, List.filter_append, List.length_append]
      by_cases hmatch : c3 = cid ∧ u3 = uid2
      · rcases hmatch with ⟨hc, hu⟩
        subst hc; subst hu
        have h0 : pairCount st c3 u3 = 0 :=
          pairCount_eq_zero_of_not_exists st c3 u3 hne
        unfold pairCount at h0
        rw [h0]
        simp
      · have hfil : (List.filter
            (fun r => decide (r.coupon_id = cid ∧ r.user_id = uid2))
            [(⟨c3, u3⟩ : Redemption)]).length = 0 := by
          simp only [List.filter, List.length]
          have : ¬ ((⟨c3, u3⟩ : Redemption).coupon_id = cid
              ∧ (⟨c3, u3⟩ : Redemption).user_id = uid2) := hmatch
          simp [this]
        rw [hfil]
        simp only [Nat.add_zero]
        exact le_max_left (pairCount st cid uid2) 1
  · intro s uid cp hcode hsne huid h0 hcp hred
    subst hcode; subst huid
    have h1 : jsStrFalsy (some s) = false := by simp [jsStrFalsy, hsne]
    have h2 : jsIdFalsy (some uid) = false := by simp [jsIdFalsy, h0]
    by_cases ha : cp.active = true
    · by_cases hex : (jsTruthy cp.max_uses && decide (cp.uses ≥ cp.max_uses.getD 0)) = true
      · have hrun : redeemV4 now fs st (some s) (some uid) = (st, .exhausted) := by
          simp [redeemV4, h1, h2, hcp, ha, hex]
        refine ⟨by rw [hrun], by rw [hrun]; intro t g; simp, ?_⟩
        intro _ hnex _
        rw [hnex] at hex
        cases hex
      · by_cases hexp : expiryPast now cp.expiry_date = true
        · have hrun : redeemV4 now fs st (some s) (some uid) = (st, .expired) := by
            simp [redeemV4, h1, h2, hcp, ha, hex, hexp]
          refine ⟨by rw [hrun], by rw [hrun]; intro t g; simp, ?_⟩
          intro _ _ hnexp
          rw [hnexp] at hexp
          cases hexp
        · have hexp0 : expiryPast now cp.expiry_date = false := by
            revert hexp; cases expiryPast now cp.expiry_date <;> simp
          have hrun : redeemV4 now fs st (some s) (some uid) = (st, .alreadyUsed) := by
            simp [redeemV4, h1, h2, hcp, ha, hex, hexp0, hred]
          exact ⟨by rw [hrun], by rw [hrun]; intro t g; simp,
            fun _ _ _ => by rw [hrun]⟩
    · have ha0 : cp.active = false := by
        revert ha; cases cp.active <;> simp
      have hrun : redeemV4 now fs st (some s) (some uid) = (st, .inactive) := by
        simp [redeemV4, h1, h2, hcp, ha0]
      exact ⟨by rw [hrun], by rw [hrun]; intro t g; simp,
        fun hact _ _ => by rw [hact] at ha0; cases ha0⟩

/-- Closed instance of `redeem_single_use_amended`: a second attempt on a
still-active multi-use coupon by a user who already redeemed it answers
AlreadyRedeemed and leaves the store unchanged. -/
theorem redeem_single_use_amended_witness :
    (redeemV4 0 noFail
      ⟨[{ id := 7, email := "u@v.w", name := "U", role := "student",
              trials_total := some 3, trials_used := 0, subscribed := false,
              sub_plan := none, sub_expires := none }],
        [{ id := 1, code := "VS-TEN", active := true, max_uses := some 10,
              uses := 1, trial_grant := some 2, plan_grant := some "trials",
              expiry_date := none }], [⟨1, 7⟩], [], []⟩
      (some "VS-TEN") (some 7)).2 = RedeemResult.alreadyUsed
    ∧ (redeemV4 0 noFail
      ⟨[{ id := 7, email := "u@v.w", name := "U", role := "student",
              trials_total := some 3, trials_used := 0, subscribed := false,
              sub_plan := none, sub_expires := none }],
        [{ id := 1, code := "VS-TEN", active := true, max_uses := some 10,
              uses := 1, trial_grant := some 2, plan_grant := some "trials",
              expiry_date := none }], [⟨1, 7⟩], [], []⟩
      (some "VS-TEN") (some 7)).1
      = ⟨[{ id := 7, email := "u@v.w", name := "U", role := "student",
              trials_total := some 3, trials_used := 0, subscribed := false,
              sub_plan := none, sub_expires := none }],
        [{ id := 1, code := "VS-TEN", active := true, max_uses := some 10,
              uses := 1, trial_grant := some 2, plan_grant := some "trials",
              expiry_date := none }], [⟨1, 7⟩], [], []⟩ := by
  have h := (redeem_single_use_amended 0 noFail
    ⟨[{ id := 7, email := "u@v.w", name := "U", role := "student",
            trials_total := some 3, trials_used := 0, subscribed := false,
            sub_plan := none, sub_expires := none }],
      [{ id := 1, code := "VS-TEN", active := true, max_uses := some 10,
            uses := 1, trial_grant := some 2, plan_grant := some "trials",
            expiry_date := none }], [⟨1, 7⟩], [], []⟩
    (some "VS-TEN") (some 7)).2 "VS-TEN" 7
    { id := 1, code := "VS-TEN", active := true, max_uses := some 10,
      uses := 1, trial_grant := some 2, plan_grant := some "trials",
      expiry_date := none }
    rfl (by decide) rfl (by decide) (by decide) (by decide)
  exact ⟨h.2.2 (by decide) (by decide) (by decide), h.1⟩

/-- Claim C5 counterexample: a single-use coupon redeemed once has
`uses = max_uses` and `active = false`; the next redemption attempt (by a
different user) is rejected with the CouponInactive error ("Coupon is no
longer active."), not CouponExhausted ("Coupon fully redeemed.") — the
`active` check precedes the exhaustion check. -/
theorem coupon_exhaustion_counterexample :
    findCoupon (redeemV4 0 noFail
      ⟨[{ id := 7, email := "u@v.w", name := "U", role := "student",
              trials_total := some 3, trials_used := 0, subscribed := false,
              sub_plan := none, sub_expires := none },
        { id := 8, email := "x@y.z", name := "X", role := "student",
              trials_total := some 3, trials_used := 0, subscribed := false,
              sub_plan := none, sub_expires := none }],
        [{ id := 1, code := "VS-ONE", active := true, max_uses := some 1,
              uses := 0, trial_grant := some 2, plan_grant := some "trials",
              expiry_date := none }], [], [], []⟩
      (some "VS-ONE") (some 7)).1 1
      = some { id := 1, code := "VS-ONE", active := false, max_uses := some 1,
               uses := 1, trial_grant := some 2, plan_grant := some "trials",
               expiry_date := none }
    ∧ (redeemV4 0 noFail (redeemV4 0 noFail
      ⟨[{ id := 7, email := "u@v.w", name := "U", role := "student",
              trials_total := some 3, trials_used := 0, subscribed := false,
              sub_plan := none, sub_expires := none },
        { id := 8, email := "x@y.z", name := "X", role := "student",
              trials_total := some 3, trials_used := 0, subscribed := false,
              sub_plan := none, sub_expires := none }],
        [{ id := 1, code := "VS-ONE", active := true, max_uses := some 1,
              uses := 0, trial_grant := some 2, plan_grant := some "trials",
              expiry_date := none }], [], [], []⟩
      (some "VS-ONE") (some 7)).1 (some "VS-ONE") (some 8)).2
      = RedeemResult.inactive
    ∧ RedeemResult.inactive ≠ RedeemResult.exhausted := by decide

/-- Claim C5 (amended): the final increment sets `active = false` in the
same coupon update that writes `uses = max_uses`; an inactive coupon is
rejected with CouponInactive, which is checked before exhaustion — so
after the deactivating increment, further attempts fail CouponInactive,
and CouponExhausted is answered exactly when a coupon is still (or again)
active while `uses ≥ max_uses`, both leaving the store unchanged. -/
theorem coupon_exhaustion_amended (now : Int) (fs : FailSpec) (st : Store)
    (s : String) (uid : Nat) (cp : Coupon)
    (hs : s ≠ "") (h0 : uid ≠ 0)
    (hcp : findCouponByCode st (jsToUpper (jsTrim s)) = some cp)
    (hcid : findCoupon st cp.id = some cp) :
    (cp.active = false →
      redeemV4 now fs st (some s) (some uid) = (st, .inactive))
    ∧ (cp.active = true →
       (jsTruthy cp.max_uses && decide (cp.uses ≥ cp.max_uses.getD 0)) = true →
       redeemV4 now fs st (some s) (some uid) = (st, .exhausted))
    ∧ (cp.active = true →
       (jsTruthy cp.max_uses && decide (cp.uses ≥ cp.max_uses.getD 0)) = false →
       expiryPast now cp.expiry_date = false →
       redemptionExists st cp.id uid = false →
       fs.couponUpdFails = false →
       jsTruthy cp.max_uses = true →
       cp.uses + 1 ≥ cp.max_uses.getD 0 →
       findCoupon (redeemV4 now fs st (some s) (some uid)).1 cp.id
         = some { cp with uses := cp.uses + 1, active := false }) := by
  have h1 : jsStrFalsy (some s) = false := by simp [jsStrFalsy, hs]
  have h2 : jsIdFalsy (some uid) = false := by simp [jsIdFalsy, h0]
  refine ⟨?_, ?_, ?_⟩
  · intro ha0
    simp [redeemV4, h1, h2, hcp, ha0]
  · intro ha hex
    simp [redeemV4, h1, h2, hcp, ha, hex]
  · intro ha hex hexp hred hcu hmt hge
    have hrun : redeemV4 now fs st (some s) (some uid)
        = redeemMutation now fs st cp uid := by
      simp [redeemV4, h1, h2, hcp, ha, hex, hexp, hred]
    rw [hrun]
    have hc := redeemMutation_coupons now fs st cp uid hcu
    have hf := findBy_updateBy_same Coupon.id cp.id
      (fun r => { r with uses := cp.uses + 1,
                         active := if jsTruthy cp.max_uses &&
                             decide (cp.uses + 1 ≥ cp.max_uses.getD 0)
                           then false else cp.active })
      st.coupons (fun x => rfl)
    unfold findCoupon at hcid ⊢
    rw [hc, hf, hcid]
    simp [hmt, hge]

/-- Closed instance of `coupon_exhaustion_amended`: the deactivating final
increment, and the CouponExhausted answer on a coupon left active with
`uses ≥ max_uses` (as an admin edit can produce). -/
theorem coupon_exhaustion_amended_witness :
    findCoupon (redeemV4 0 noFail
      ⟨[{ id := 7, email := "u@v.w", name := "U", role := "student",
              trials_total := some 3, trials_used := 0, subscribed := false,
              sub_plan := none, sub_expires := none }],
        [{ id := 1, code := "VS-ONE", active := true, max_uses := some 1,
              uses := 0, trial_grant := some 2, plan_grant := some "trials",
              expiry_date := none }], [], [], []⟩
      (some "VS-ONE") (some 7)).1 1
      = some { id := 1, code := "VS-ONE", active := false, max_uses := some 1,
               uses := 1, trial_grant := some 2, plan_grant := some "trials",
               expiry_date := none }
    ∧ redeemV4 0 noFail
      ⟨[{ id := 7, email := "u@v.w", name := "U", role := "student",
              trials_total := some 3, trials_used := 0, subscribed := false,
              sub_plan := none, sub_expires := none }],
        [{ id := 2, code := "VS-EDIT", active := true, max_uses := some 1,
              uses := 3, trial_grant := some 2, plan_grant := some "trials",
              expiry_date := none }], [], [], []⟩
      (some "VS-EDIT") (some 7)
      = (⟨[{ id := 7, email := "u@v.w", name := "U", role := "student",
              trials_total := some 3, trials_used := 0, subscribed := false,
              sub_plan := none, sub_expires := none }],
        [{ id := 2, code := "VS-EDIT", active := true, max_uses := some 1,
              uses := 3, trial_grant := some 2, plan_grant := some "trials",
              expiry_date := none }], [], [], []⟩, RedeemResult.exhausted) := by
  have ha := (coupon_exhaustion_amended 0 noFail
    ⟨[{ id := 7, email := "u@v.w", name := "U", role := "student",
            trials_total := some 3, trials_used := 0, subscribed := false,
            sub_plan := none, sub_expires := none }],
      [{ id := 1, code := "VS-ONE", active := true, max_uses := some 1,
            uses := 0, trial_grant := some 2, plan_grant := some "trials",
            expiry_date := none }], [], [], []⟩
    "VS-ONE" 7
    { id := 1, code := "VS-ONE", active := true, max_uses := some 1,
      uses := 0, trial_grant := some 2, plan_grant := some "trials",
      expiry_date := none }
    (by decide) (by decide) (by decide) (by decide)).2.2
    rfl (by decide) (by decide) (by decide) rfl (by decide) (by decide)
  have hb := (coupon_exhaustion_amended 0 noFail
    ⟨[{ id := 7, email := "u@v.w", name := "U", role := "student",
            trials_total := some 3, trials_used := 0, subscribed := false,
            sub_plan := none, sub_expires := none }],
      [{ id := 2, code := "VS-EDIT", active := true, max_uses := some 1,
            uses := 3, trial_grant := some 2, plan_grant := some "trials",
            expiry_date := none }], [], [], []⟩
    "VS-EDIT" 7
    { id := 2, code := "VS-EDIT", active := true, max_uses := some 1,
      uses := 3, trial_grant := some 2, plan_grant := some "trials",
      expiry_date := none }
    (by decide) (by decide) (by decide) (by decide)).2.1
    rfl (by decide)
  exact ⟨by rw [ha], hb⟩

/-- Claim C3, a code bug shown at a concrete input: the mutation phase is
three independent writes whose results the handler ignores.  When the
user-grant write fails, the run still persists the coupon increment,
still inserts the redemption row, and still reports success — the partial
effect (uses advanced, redemption recorded, no grant applied) is
observably persisted, contradicting the single-logical-transaction
requirement. -/
theorem redeem_partial_effect_on_failed_grant :
    redeemV4 0 ⟨false, true, false⟩
      ⟨[{ id := 7, email := "u@v.w", name := "U", role := "student",
              trials_total := some 3, trials_used := 0, subscribed := false,
              sub_plan := none, sub_expires := none }],
        [{ id := 1, code := "VS-ABC", active := true, max_uses := some 5,
              uses := 0, trial_grant := some 2, plan_grant := some "trials",
              expiry_date := none }], [], [], []⟩
      (some "VS-ABC") (some 7)
    = (⟨[{ id := 7, email := "u@v.w", name := "U", role := "student",
              trials_total := some 3, trials_used := 0, subscribed := false,
              sub_plan := none, sub_expires := none }],
        [{ id := 1, code := "VS-ABC", active := true, max_uses := some 5,
              uses := 1, trial_grant := some 2, plan_grant := some "trials",
              expiry_date := none }], [⟨1, 7⟩], [], []⟩,
       RedeemResult.success "trials" 2) := by decide

end VivaSmart
